import Mathlib

/-!
Verification of `lingvo/core/datasource.py`: the DataSource composition
strategies (Simple, Chaining, WithinBatchMixing, CrossBatchMixing).

The Python code is shallowly embedded. Python values relevant to the
configuration fields are modelled by `PyVal`; the external fetch collaborator
(`data_source_from_file_pattern_fn`) is a pure function, and every invocation
of it is recorded in an explicit trace (`List FetchCall`) threaded through each
`BuildDataSource` embedding, so that claims about how often and with which
arguments the collaborator is invoked become statements about the trace.
Python exceptions are modelled by `Except PyError`.
-/

namespace Datasource

/-- A Python value, as far as the configuration fields of this file care:
strings, numbers, lists and None. Used so that the isinstance checks of the
source are real case distinctions. -/
inductive PyVal where
  | str (s : String)
  | int (n : Int)
  | list (xs : List PyVal)
  | none


/-- Python `isinstance(x, six.string_types)`. -/
def pyIsStr : PyVal → Bool
  | .str _ => true
  | _ => false

/-- Python `isinstance(x, list)`. -/
def pyIsList : PyVal → Bool
  | .list _ => true
  | _ => false

/-- Extracts the string of a `PyVal.str`; only ever applied under a guard that
established `pyIsStr`. -/
def pyStr : PyVal → String
  | .str s => s
  | _ => ""

/-- Python `len(x)`: defined for sized values (lists and strings), a TypeError
otherwise, modelled by `Option.none`. -/
def pyLen : PyVal → Option Nat
  | .list xs => some xs.length
  | .str s => some s.length
  | _ => Option.none

/-- Python truthiness (`if not x:`): empty list, empty string, 0 and None are
falsy. -/
def pyTruthy : PyVal → Bool
  | .list xs => !xs.isEmpty
  | .str s => !s.isEmpty
  | .int n => n != 0
  | .none => false

/-- Python iteration (`for x in v`): lists yield their elements, strings yield
their characters as one-character strings, other values raise a TypeError
(modelled by `Option.none`). -/
def pyIter : PyVal → Option (List PyVal)
  | .list xs => some xs
  | .str s => some (s.data.map fun c => PyVal.str (String.singleton c))
  | _ => Option.none

/-- A batch returned by the fetch collaborator: an opaque nested structure of
numeric arrays. Only the shapes of the leaf arrays matter to this file
(`batch_size` is read off the first leaf), so a leaf is modelled by its
shape. -/
inductive Batch where
  | leaf (shape : List Nat)
  | node (children : List Batch)


mutual

/-- `tf.nest.flatten`: the leaf arrays of a batch, in order. -/
def Batch.flatten : Batch → List (List Nat)
  | .leaf s => [s]
  | .node cs => Batch.flattenList cs

/-- Flattens a list of batches, in order. -/
def Batch.flattenList : List Batch → List (List Nat)
  | [] => []
  | c :: cs => c.flatten ++ Batch.flattenList cs

end

/-- Modelled from the spec: `py_utils.GetShape` is code of this repository not
under src/, and `tf.nest.flatten` is an external collaborator. Per the spec,
the batch size is derived from the shape of the first leaf array of the batch:
`py_utils.GetShape(tf.nest.flatten(data_source)[0])[0]`. `Option.none` models
the IndexError on an empty flattened structure or a scalar first leaf. -/
def firstLeafBatchSize (b : Batch) : Option Nat :=
  match b.flatten with
  | [] => Option.none
  | s :: _ => s.head?

/-- One recorded invocation of the fetch collaborator
(`data_source_from_file_pattern_fn`): the file pattern argument and the
optional `input_source_weights` keyword argument (None when not passed). -/
structure FetchCall where
  pattern : String
  input_source_weights : Option PyVal


/-- The fetch collaborator: takes a file pattern and optional weights, returns
a batch. Pure in the embedding; its invocations are recorded in the trace. -/
def Fetch := String → Option PyVal → Batch

/-- Python exceptions raised by this file or by builtins it uses. -/
inductive PyError where
  | valueError (msg : String)
  | typeError (msg : String)
  | indexError


/-- The `py_utils.NestedMap` returned by `BuildDataSource`, with one optional
field per key this file ever assigns. A field the source never assigns for a
given variant is `Option.none`. -/
structure NestedMapRet where
  data : Batch
  source_selected : Option (List (List Nat))
  selected_bprop : Option (List Nat)
  bprop_variable_filters : Option PyVal


/-- Result of an embedded `BuildDataSource` call: the Python result (or the
exception), together with the trace of fetch invocations made during the
call. -/
structure BuildOut where
  res : Except PyError NestedMapRet
  fetchTrace : List FetchCall


/-- Holds iff the result is a ValueError, the Invalid-Configuration error of
the spec taxonomy. -/
def isInvalidConfig : Except PyError NestedMapRet → Bool
  | .error (.valueError _) => true
  | _ => false

/-- Holds iff the call returned normally. -/
def isOk : Except PyError NestedMapRet → Bool
  | .ok _ => true
  | _ => false

/-- Configuration of `SimpleDataSource`. -/
structure SimpleParams where
  file_pattern : PyVal


/-- `SimpleDataSource.BuildDataSource`: requires `p.file_pattern` to be a
string, then calls the fetch collaborator once on it and returns the result
under `data` with no other fields. -/
def SimpleDataSource.BuildDataSource (p : SimpleParams) (f : Fetch) : BuildOut :=
  match p.file_pattern with
  | .str s =>
      { res := .ok { data := f s Option.none
                     source_selected := Option.none
                     selected_bprop := Option.none
                     bprop_variable_filters := Option.none }
        fetchTrace := [⟨s, Option.none⟩] }
  | _ =>
      { res := .error (.valueError "SimpleDataSource expects p.file_pattern to be a string.")
        fetchTrace := [] }

/-- Configuration of `ChainingDataSource`. -/
structure ChainingParams where
  file_patterns : PyVal


/-- `ChainingDataSource.BuildDataSource`: requires `p.file_patterns` to be a
list of comma-free strings, joins them with commas, calls the fetch
collaborator once on the joined string, and returns all-empty-string
`bprop_variable_filters`, one per pattern. -/
def ChainingDataSource.BuildDataSource (p : ChainingParams) (f : Fetch) : BuildOut :=
  match p.file_patterns with
  | .list xs =>
      if !(xs.all pyIsStr) then
        { res := .error (.valueError "Expected a list of strings")
          fetchTrace := [] }
      else if xs.any (fun x => (pyStr x).data.contains ',') then
        { res := .error (.valueError "Can not use commas in file_pattern when chaining is used.")
          fetchTrace := [] }
      else
        let joined := String.intercalate "," (xs.map pyStr)
        { res := .ok { data := f joined Option.none
                       source_selected := Option.none
                       selected_bprop := Option.none
                       bprop_variable_filters :=
                         some (.list (List.replicate xs.length (.str ""))) }
          fetchTrace := [⟨joined, Option.none⟩] }
  | _ =>
      { res := .error (.valueError "Expected a list")
        fetchTrace := [] }

/-- Configuration of `WithinBatchMixingDataSource`. -/
structure WithinBatchParams where
  file_patterns : PyVal
  weights : PyVal


/-- `WithinBatchMixingDataSource.BuildDataSource`: validates that
`p.file_patterns` and `p.weights` are lists of equal length, that all patterns
are strings and comma-free, then calls the fetch collaborator once on the
comma-joined patterns with `input_source_weights` set to the weights, and
returns all-empty-string `bprop_variable_filters`. -/
def WithinBatchMixingDataSource.BuildDataSource (p : WithinBatchParams) (f : Fetch) :
    BuildOut :=
  match p.file_patterns with
  | .list pats =>
      (match p.weights with
      | .list ws =>
          if pats.length != ws.length then
            { res := .error (.valueError
                "Expected p.file_patterns and p.weights to be the same length.")
              fetchTrace := [] }
          else if !(pats.all pyIsStr) then
            { res := .error (.valueError
                "Expected all elements of p.file_patterns to be strings")
              fetchTrace := [] }
          else if pats.any (fun x => (pyStr x).data.contains ',') then
            { res := .error (.valueError
                "Can not use commas in file_pattern when within-batch mixing is used.")
              fetchTrace := [] }
          else
            let joined := String.intercalate "," (pats.map pyStr)
            { res := .ok { data := f joined (some (.list ws))
                           source_selected := Option.none
                           selected_bprop := Option.none
                           bprop_variable_filters :=
                             some (.list (List.replicate pats.length (.str ""))) }
              fetchTrace := [⟨joined, some (.list ws)⟩] }
      | _ =>
          { res := .error (.valueError "Expected a list")
            fetchTrace := [] })
  | _ =>
      { res := .error (.valueError "Expected a list")
        fetchTrace := [] }

/-- Configuration of `CrossBatchMixingDataSource`. -/
structure CrossBatchParams where
  file_patterns : PyVal
  weights : PyVal
  bprop_variable_filters : PyVal


/-- A zero-argument batch producer, as handed to `MixByWeight`. Invoking it
returns the batch together with the fetch invocations it performed. -/
def Producer := Unit → Batch × List FetchCall

/-- The inner helper of `CrossBatchMixingDataSource.BuildDataSource`: wraps a
file pattern in a zero-argument producer whose invocation calls the fetch
collaborator on that pattern (and records that single call). -/
def MakeDataSourceFromFilePatternFunc (f : Fetch) (file_pattern : String) : Producer :=
  fun _ => (f file_pattern Option.none, [⟨file_pattern, Option.none⟩])

/-- A one-hot vector of length `n` with the 1 at position `i`. -/
def oneHot (i n : Nat) : List Nat :=
  (List.range n).map fun j => if j = i then 1 else 0

/-- Modelled from the spec: `py_utils.MixByWeight` is code of this repository
that is not under src/. Per the spec, given a list of zero-argument producers
and a parallel list of weights, it draws one producer index per call according
to the normalized weight distribution, invokes only that producer, and returns
the batch plus a one-hot indicator of which index was drawn. The random draw is
injected here as the explicit index `sel` (the spec asks for an injectable
random source); an out-of-range draw yields `Option.none`. The weights only
determine the distribution of the draw, so they do not appear in the result. -/
def MixByWeight (inputs : List Producer) (weights : PyVal) (sel : Nat) :
    Option (Batch × List Nat × List FetchCall) :=
  match inputs.get? sel with
  | some prod =>
      let r := prod ()
      some (r.1, oneHot sel inputs.length, r.2)
  | Option.none => Option.none

/-- `tf.expand_dims(v, 0)`: a 1-D vector becomes a single-row matrix. -/
def expandDims0 (v : List Nat) : List (List Nat) :=
  [v]

/-- `tf.tile(m, [b, 1])`: repeats the rows of `m` `b` times along axis 0 (the
axis-1 multiplier is 1, leaving each row unchanged). -/
def tileRows (b : Nat) (m : List (List Nat)) : List (List Nat) :=
  (List.replicate b m).flatten

/-- Result of an embedded `CrossBatchMixingDataSource.BuildDataSource` call:
besides the Python result and the fetch trace, it records the weights handed
to `MixByWeight` (when the call reached that point), so that forwarding of the
configured weights is observable. -/
structure CrossBuildOut where
  res : Except PyError NestedMapRet
  fetchTrace : List FetchCall
  mixWeights : Option PyVal


/-- `CrossBatchMixingDataSource.BuildDataSource`: validates that
`p.file_patterns` and `p.weights` have equal length and that all patterns are
strings, wraps each pattern in a lazy producer, resolves
`bprop_variable_filters` (all-empty-string when the configured value is falsy,
the configured value unchanged otherwise), lets `MixByWeight` draw and invoke
one producer, derives the batch size from the first leaf of the drawn batch,
and tiles the one-hot indicator to `source_selected`. The injected draw `sel`
stands for the random selection inside `MixByWeight`. -/
def CrossBatchMixingDataSource.BuildDataSource (p : CrossBatchParams) (f : Fetch)
    (sel : Nat) : CrossBuildOut :=
  match pyLen p.weights with
  | Option.none =>
      { res := .error (.typeError "object of type p.weights has no len()")
        fetchTrace := [], mixWeights := Option.none }
  | some lw =>
      (match pyLen p.file_patterns with
      | Option.none =>
          { res := .error (.typeError "object of type p.file_patterns has no len()")
            fetchTrace := [], mixWeights := Option.none }
      | some lf =>
          if lw != lf then
            { res := .error (.valueError
                "Expected p.file_patterns and p.weights to be the same length.")
              fetchTrace := [], mixWeights := Option.none }
          else
            match pyIter p.file_patterns with
            | Option.none =>
                { res := .error (.typeError "p.file_patterns is not iterable")
                  fetchTrace := [], mixWeights := Option.none }
            | some pats =>
                if !(pats.all pyIsStr) then
                  { res := .error (.valueError
                      "Expected all elements of p.file_patterns to be strings")
                    fetchTrace := [], mixWeights := Option.none }
                else
                  let inputs := pats.map fun fp =>
                    MakeDataSourceFromFilePatternFunc f (pyStr fp)
                  let weights := p.weights
                  let bprop_variable_filters : PyVal :=
                    if !(pyTruthy p.bprop_variable_filters) then
                      .list (List.replicate inputs.length (.str ""))
                    else
                      p.bprop_variable_filters
                  match MixByWeight inputs weights sel with
                  | Option.none =>
                      { res := .error .indexError
                        fetchTrace := [], mixWeights := some weights }
                  | some (data_source, selected_bprop, tr) =>
                      match firstLeafBatchSize data_source with
                      | Option.none =>
                          { res := .error .indexError
                            fetchTrace := tr, mixWeights := some weights }
                      | some batch_size =>
                          { res := .ok { data := data_source
                                         source_selected :=
                                           some (tileRows batch_size
                                             (expandDims0 selected_bprop))
                                         selected_bprop := some selected_bprop
                                         bprop_variable_filters :=
                                           some bprop_variable_filters }
                            fetchTrace := tr, mixWeights := some weights })

/-- A heap of Python configuration objects of one parameter type. A caller
holds a reference (an index) into the heap; mutating through one reference must
not affect the object behind a different reference. This models the Python
object identity that `params.Copy()` in `DataSource.__init__` is there for. -/
structure Store (α : Type) where
  cells : List α

/-- Dereference. -/
def Store.get (st : Store α) (r : Nat) : Option α :=
  st.cells.get? r

/-- Mutate the object behind reference `r` in place. -/
def Store.set (st : Store α) (r : Nat) (v : α) : Store α :=
  ⟨st.cells.set r v⟩

/-- Modelled from the spec: `hyperparams.Params.Copy` is code of this
repository that is not under src/. Per the spec, configuration is copied on
DataSource construction, so `Copy` allocates a fresh configuration object with
the same contents and returns a reference to it. For a dangling input
reference the heap is unchanged. -/
def Params.Copy (st : Store α) (r : Nat) : Store α × Nat :=
  match st.get r with
  | some v => (⟨st.cells ++ [v]⟩, st.cells.length)
  | Option.none => (st, st.cells.length)

/-- A constructed `DataSource` instance: it holds a reference to its stored
configuration object. -/
structure DataSourceInst where
  paramsRef : Nat

/-- `DataSource.__init__`: `self.params = params.Copy()` — stores a copy of the
configuration handed in, not the very object of the caller. -/
def DataSource.init (st : Store α) (params : Nat) : Store α × DataSourceInst :=
  let c := Params.Copy st params
  (c.1, ⟨c.2⟩)

/-- A list of wrapped strings passes the all-strings isinstance check. -/
lemma all_pyIsStr_map_str (ps : List String) :
    (ps.map PyVal.str).all pyIsStr = true := by
  induction ps with
  | nil => rfl
  | cons a as ih => simp [List.all_cons, pyIsStr, ih]

/-- Unwrapping wrapped strings is the identity. -/
lemma map_pyStr_map_str (ps : List String) :
    (ps.map PyVal.str).map pyStr = ps := by
  induction ps with
  | nil => rfl
  | cons a as ih => simp [pyStr, ih]

/-- The comma scan over wrapped strings equals the comma scan over the
strings. -/
lemma any_comma_map_str (ps : List String) :
    ((ps.map PyVal.str).any fun x => (pyStr x).data.contains ',')
      = (ps.any fun s => s.data.contains ',') := by
  induction ps with
  | nil => rfl
  | cons a as ih =>
      simp only [List.map_cons, List.any_cons, ih]
      rfl

/-- A one-hot vector has the requested length. -/
lemma oneHot_length (i n : Nat) : (oneHot i n).length = n := by
  simp [oneHot]

/-- Tiling the single-row matrix of a vector `b` times yields `b` copies of
the vector. -/
lemma tileRows_expandDims0 (b : Nat) (v : List Nat) :
    tileRows b (expandDims0 v) = List.replicate b v := by
  induction b with
  | zero => rfl
  | succ n ih => simp [tileRows, expandDims0, List.replicate_succ] at ih ⊢

/-- `pyLen` agrees with the length of what `pyIter` yields. -/
lemma pyLen_eq_iter_length (v : PyVal) :
    pyLen v = (pyIter v).map List.length := by
  cases v with
  | str s =>
      show some s.length = some ((s.data.map fun c => PyVal.str (String.singleton c)).length)
      rw [List.length_map]
      exact rfl
  | int n => rfl
  | list xs => rfl
  | none => rfl

/-- Characterization of `CrossBatchMixingDataSource.BuildDataSource` on a
well-formed configuration (string patterns, matching weights length, in-range
draw): the guards pass, the producer of the drawn index is the only one
invoked, and the result is assembled from the drawn batch. -/
lemma crossBuild_wf (ps : List String) (ws : List PyVal) (bf : PyVal) (f : Fetch)
    (sel : Nat) (hlen : ws.length = ps.length) (hsel : sel < ps.length) :
    CrossBatchMixingDataSource.BuildDataSource ⟨.list (ps.map .str), .list ws, bf⟩ f sel
      = match firstLeafBatchSize (f (ps.get ⟨sel, hsel⟩) Option.none) with
        | Option.none =>
            { res := .error .indexError
              fetchTrace := [⟨ps.get ⟨sel, hsel⟩, Option.none⟩]
              mixWeights := some (.list ws) }
        | some bs =>
            { res := .ok { data := f (ps.get ⟨sel, hsel⟩) Option.none
                           source_selected :=
                             some (tileRows bs (expandDims0 (oneHot sel ps.length)))
                           selected_bprop := some (oneHot sel ps.length)
                           bprop_variable_filters :=
                             some (if !(pyTruthy bf) then
                               .list (List.replicate ps.length (.str ""))
                             else bf) }
              fetchTrace := [⟨ps.get ⟨sel, hsel⟩, Option.none⟩]
              mixWeights := some (.list ws) } := by
  simp only [CrossBatchMixingDataSource.BuildDataSource, pyLen, pyIter,
    all_pyIsStr_map_str, Bool.not_true, MixByWeight, List.get?_map,
    List.get?_eq_get hsel, List.length_map, hlen, bne_self_eq_false,
    Bool.false_eq_true, if_false]
  rfl

/-- If `SimpleDataSource.BuildDataSource` raises a ValueError, no fetch call
was made. -/
lemma simple_valueError_trace (p : SimpleParams) (f : Fetch) (m : String) :
    (SimpleDataSource.BuildDataSource p f).res = .error (.valueError m) →
    (SimpleDataSource.BuildDataSource p f).fetchTrace = [] := by
  unfold SimpleDataSource.BuildDataSource
  repeat' split
  all_goals intro h
  all_goals first
  | rfl
  | simp at h

/-- If `ChainingDataSource.BuildDataSource` raises a ValueError, no fetch call
was made. -/
lemma chaining_valueError_trace (p : ChainingParams) (f : Fetch) (m : String) :
    (ChainingDataSource.BuildDataSource p f).res = .error (.valueError m) →
    (ChainingDataSource.BuildDataSource p f).fetchTrace = [] := by
  unfold ChainingDataSource.BuildDataSource
  repeat' split
  all_goals intro h
  all_goals first
  | rfl
  | simp at h

/-- If `WithinBatchMixingDataSource.BuildDataSource` raises a ValueError, no
fetch call was made. -/
lemma within_valueError_trace (p : WithinBatchParams) (f : Fetch) (m : String) :
    (WithinBatchMixingDataSource.BuildDataSource p f).res = .error (.valueError m) →
    (WithinBatchMixingDataSource.BuildDataSource p f).fetchTrace = [] := by
  unfold WithinBatchMixingDataSource.BuildDataSource
  repeat' split
  all_goals intro h
  all_goals first
  | rfl
  | simp at h

/-- If `CrossBatchMixingDataSource.BuildDataSource` raises a ValueError, no
fetch call was made (the only errors after a producer was invoked are
IndexErrors from the batch-size derivation, not ValueErrors). -/
lemma crossBuild_valueError_trace (p : CrossBatchParams) (f : Fetch) (sel : Nat)
    (m : String) :
    (CrossBatchMixingDataSource.BuildDataSource p f sel).res = .error (.valueError m) →
    (CrossBatchMixingDataSource.BuildDataSource p f sel).fetchTrace = [] := by
  unfold CrossBatchMixingDataSource.BuildDataSource
  dsimp only []
  repeat' split
  all_goals intro h
  all_goals first
  | rfl
  | simp at h

/-- Inversion of a successful `CrossBatchMixingDataSource.BuildDataSource`
call: the patterns iterate, the draw is in range, and every result field has
the shape the source assembles. -/
lemma crossBuild_ok_inv (p : CrossBatchParams) (f : Fetch) (sel : Nat)
    (r : NestedMapRet) :
    (CrossBatchMixingDataSource.BuildDataSource p f sel).res = .ok r →
    ∃ pats bs,
      pyIter p.file_patterns = some pats ∧
      sel < pats.length ∧
      firstLeafBatchSize r.data = some bs ∧
      r.selected_bprop = some (oneHot sel pats.length) ∧
      r.source_selected = some (tileRows bs (expandDims0 (oneHot sel pats.length))) ∧
      r.bprop_variable_filters
        = some (if pyTruthy p.bprop_variable_filters then p.bprop_variable_filters
                else .list (List.replicate pats.length (.str ""))) := by
  unfold CrossBatchMixingDataSource.BuildDataSource
  dsimp only []
  repeat' split
  all_goals intro h
  all_goals try simp at h
  all_goals
    rename_i x2 pats hiter hall x1 ds sb tr hmix x0 bs hbs hb1 hb2
  all_goals try (exfalso; revert hb1; simp [hb2]; done)
  all_goals subst h
  all_goals unfold MixByWeight at hmix
  all_goals
    rcases hget : (List.map (fun fp => MakeDataSourceFromFilePatternFunc f (pyStr fp)) pats).get? sel
      with _ | prod <;> rw [hget] at hmix <;> simp at hmix
  all_goals
    have hlt : sel < pats.length := by
      obtain ⟨hh, -⟩ := List.get?_eq_some.mp hget
      simpa using hh
  all_goals obtain ⟨he1, he2, he3⟩ := hmix
  all_goals subst he1
  all_goals subst he2
  all_goals
    exact ⟨pats, bs, hiter, hlt, hbs, by simp, by simp, rfl⟩

/-- On a configuration with all-string patterns and matching weights length,
the cross-batch validation passes for every draw: no ValueError is raised and
the configured weights are handed to `MixByWeight` unchanged. -/
lemma crossBuild_guards_pass (ps : List String) (ws : List PyVal) (bf : PyVal)
    (f : Fetch) (sel : Nat) (hlen : ws.length = ps.length) :
    (CrossBatchMixingDataSource.BuildDataSource
        ⟨.list (ps.map .str), .list ws, bf⟩ f sel).mixWeights = some (.list ws) ∧
    isInvalidConfig (CrossBatchMixingDataSource.BuildDataSource
        ⟨.list (ps.map .str), .list ws, bf⟩ f sel).res = false := by
  rcases Nat.lt_or_ge sel ps.length with hsel | hsel
  · rw [crossBuild_wf ps ws bf f sel hlen hsel]
    cases firstLeafBatchSize (f (ps.get ⟨sel, hsel⟩) Option.none) <;> exact ⟨rfl, rfl⟩
  · have hget : (List.map (fun fp => MakeDataSourceFromFilePatternFunc f (pyStr fp))
        (List.map PyVal.str ps)).get? sel = Option.none := by
      rw [List.get?_eq_none]
      simpa using hsel
    simp only [CrossBatchMixingDataSource.BuildDataSource, pyLen, pyIter,
      all_pyIsStr_map_str, Bool.not_true, MixByWeight, hget, List.length_map,
      hlen, bne_self_eq_false, Bool.false_eq_true, if_false]
    constructor <;> trivial

/-- A concrete fetch collaborator for the witnesses: every pattern yields a
batch with a single leaf array of shape [4, 7]. -/
def exFetch : Fetch := fun _ _ => .leaf [4, 7]

/-- Claim C1: for `CrossBatchMixingDataSource.BuildDataSource`, each file
pattern is wrapped in a zero-argument producer that calls fetch on exactly
that pattern when invoked (first conjunct), and for every call with an
in-range draw the fetch trace of the whole call is exactly one call on the
selected pattern — so the selected producer fetches exactly once and the
producer of every non-selected index never fetches (second conjunct). -/
theorem C1_cross_batch_selected_fetch_once (ps : List String) (ws : List PyVal)
    (bf : PyVal) (f : Fetch) (sel : Nat) (fp : String)
    (hlen : ws.length = ps.length) (hsel : sel < ps.length) :
    MakeDataSourceFromFilePatternFunc f fp ()
        = (f fp Option.none, [⟨fp, Option.none⟩]) ∧
    (CrossBatchMixingDataSource.BuildDataSource
        ⟨.list (ps.map .str), .list ws, bf⟩ f sel).fetchTrace
      = [⟨ps.get ⟨sel, hsel⟩, Option.none⟩] := by
  refine ⟨rfl, ?_⟩
  rw [crossBuild_wf ps ws bf f sel hlen hsel]
  cases firstLeafBatchSize (f (ps.get ⟨sel, hsel⟩) Option.none) <;> rfl

/-- Witness for C1: two patterns, draw index 1 — only pattern "b" is
fetched. -/
theorem C1_cross_batch_selected_fetch_once_witness :
    MakeDataSourceFromFilePatternFunc exFetch "x" ()
        = (exFetch "x" Option.none, [⟨"x", Option.none⟩]) ∧
    (CrossBatchMixingDataSource.BuildDataSource
        ⟨.list [.str "a", .str "b"], .list [.int 1, .int 0], .none⟩ exFetch 1).fetchTrace
      = [⟨"b", Option.none⟩] :=
  C1_cross_batch_selected_fetch_once ["a", "b"] [.int 1, .int 0] .none exFetch 1 "x"
    rfl (by decide)

/-- Claim C2: on every successful `CrossBatchMixingDataSource.BuildDataSource`
call, `source_selected` is exactly `batch_size` identical rows each equal to
the returned `selected_bprop` vector (stated as equality with
`List.replicate bs sb`, which fixes the shape [batch_size, num_sources] and
makes every row `sb`), where `batch_size` is the leading dimension of the
first leaf array of the selected batch and the length of `sb` is
`len(file_patterns)`. -/
theorem C2_source_selected_shape (p : CrossBatchParams) (f : Fetch) (sel : Nat)
    (r : NestedMapRet) (pats : List PyVal) (sb : List Nat) (bs : Nat)
    (h : (CrossBatchMixingDataSource.BuildDataSource p f sel).res = .ok r)
    (hpats : pyIter p.file_patterns = some pats)
    (hsb : r.selected_bprop = some sb)
    (hbs : firstLeafBatchSize r.data = some bs) :
    r.source_selected = some (List.replicate bs sb) ∧
    (List.replicate bs sb).length = bs ∧
    sb.length = pats.length ∧
    pyLen p.file_patterns = some sb.length := by
  obtain ⟨pats', bs', hpats', hsel', hbs', hsb', hss', -⟩ := crossBuild_ok_inv p f sel r h
  rw [hpats] at hpats'
  injection hpats' with e
  subst e
  rw [hbs] at hbs'
  injection hbs' with e2
  subst e2
  rw [hsb] at hsb'
  injection hsb' with e3
  subst e3
  refine ⟨?_, List.length_replicate _ _, oneHot_length _ _, ?_⟩
  · rw [hss', tileRows_expandDims0]
  · rw [pyLen_eq_iter_length, hpats, oneHot_length]
    rfl

/-- Witness for C2 on a two-source configuration with batch size 4. -/
theorem C2_source_selected_shape_witness :
    ((CrossBatchMixingDataSource.BuildDataSource
        ⟨.list [.str "a", .str "b"], .list [.int 1, .int 0], .none⟩ exFetch 0).res
      = .ok { data := .leaf [4, 7]
              source_selected := some [[1, 0], [1, 0], [1, 0], [1, 0]]
              selected_bprop := some [1, 0]
              bprop_variable_filters :=
                some (.list [.str "", .str ""]) }) ∧
    ({ data := .leaf [4, 7]
       source_selected := some [[1, 0], [1, 0], [1, 0], [1, 0]]
       selected_bprop := some [1, 0]
       bprop_variable_filters :=
         some (.list [.str "", .str ""]) } : NestedMapRet).source_selected
      = some (List.replicate 4 [1, 0]) :=
  ⟨rfl,
    (C2_source_selected_shape
      ⟨.list [.str "a", .str "b"], .list [.int 1, .int 0], .none⟩ exFetch 0
      { data := .leaf [4, 7]
        source_selected := some [[1, 0], [1, 0], [1, 0], [1, 0]]
        selected_bprop := some [1, 0]
        bprop_variable_filters := some (.list [.str "", .str ""]) }
      [.str "a", .str "b"] [1, 0] 4 rfl rfl rfl rfl).1⟩

/-- Counterexample to claim C3: with two file patterns, two weights and a
non-empty `bprop_variable_filters` of length one, the claim requires an
Invalid-Configuration error, but the code performs no length validation of
`bprop_variable_filters`: the call succeeds and returns the configured
one-element list unchanged. -/
theorem C3_no_bprop_length_check_counterexample :
    (CrossBatchMixingDataSource.BuildDataSource
        ⟨.list [.str "a", .str "b"], .list [.int 1, .int 1], .list [.str "x"]⟩
        exFetch 0).res
      = .ok { data := .leaf [4, 7]
              source_selected := some [[1, 0], [1, 0], [1, 0], [1, 0]]
              selected_bprop := some [1, 0]
              bprop_variable_filters := some (.list [.str "x"]) } := rfl

/-- Claim C3 as amended: `CrossBatchMixingDataSource.BuildDataSource` never
validates the length of `bprop_variable_filters`. On every successful call,
when the configured `bprop_variable_filters` is falsy (in particular empty)
the filters of the result are synthesized as a list of empty strings of length
`len(file_patterns)`, and when it is non-empty (truthy) the configured value
is returned unchanged — even when its length differs from
`len(file_patterns)`. -/
theorem C3_bprop_filters_resolution (p : CrossBatchParams) (f : Fetch) (sel : Nat)
    (r : NestedMapRet) (pats : List PyVal)
    (h : (CrossBatchMixingDataSource.BuildDataSource p f sel).res = .ok r)
    (hpats : pyIter p.file_patterns = some pats) :
    r.bprop_variable_filters
      = some (if pyTruthy p.bprop_variable_filters then p.bprop_variable_filters
              else .list (List.replicate pats.length (.str ""))) := by
  obtain ⟨pats', -, hpats', -, -, -, -, hbf⟩ := crossBuild_ok_inv p f sel r h
  rw [hpats] at hpats'
  injection hpats' with e
  subst e
  exact hbf

/-- Witness for the amended C3: non-empty filters of mismatched length are
returned unchanged on a successful call. -/
theorem C3_bprop_filters_resolution_witness :
    ({ data := .leaf [4, 7]
       source_selected := some [[1, 0], [1, 0], [1, 0], [1, 0]]
       selected_bprop := some [1, 0]
       bprop_variable_filters := some (.list [.str "x"]) } : NestedMapRet).bprop_variable_filters
      = some (if pyTruthy (.list [.str "x"]) then (.list [.str "x"])
              else .list (List.replicate ([PyVal.str "a", PyVal.str "b"]).length (.str ""))) :=
  C3_bprop_filters_resolution
    ⟨.list [.str "a", .str "b"], .list [.int 1, .int 1], .list [.str "x"]⟩
    exFetch 0
    { data := .leaf [4, 7]
      source_selected := some [[1, 0], [1, 0], [1, 0], [1, 0]]
      selected_bprop := some [1, 0]
      bprop_variable_filters := some (.list [.str "x"]) }
    [.str "a", .str "b"] rfl rfl

/-- Claim C4: for every DataSource variant, every Invalid-Configuration
(ValueError) failure of `BuildDataSource` happens before any fetch: whenever
the result is a ValueError, the fetch trace is empty. -/
theorem C4_invalid_config_before_fetch
    (p1 : SimpleParams) (f1 : Fetch) (m1 : String)
    (h1 : (SimpleDataSource.BuildDataSource p1 f1).res = .error (.valueError m1))
    (p2 : ChainingParams) (f2 : Fetch) (m2 : String)
    (h2 : (ChainingDataSource.BuildDataSource p2 f2).res = .error (.valueError m2))
    (p3 : WithinBatchParams) (f3 : Fetch) (m3 : String)
    (h3 : (WithinBatchMixingDataSource.BuildDataSource p3 f3).res = .error (.valueError m3))
    (p4 : CrossBatchParams) (f4 : Fetch) (sel : Nat) (m4 : String)
    (h4 : (CrossBatchMixingDataSource.BuildDataSource p4 f4 sel).res = .error (.valueError m4)) :
    (SimpleDataSource.BuildDataSource p1 f1).fetchTrace = [] ∧
    (ChainingDataSource.BuildDataSource p2 f2).fetchTrace = [] ∧
    (WithinBatchMixingDataSource.BuildDataSource p3 f3).fetchTrace = [] ∧
    (CrossBatchMixingDataSource.BuildDataSource p4 f4 sel).fetchTrace = [] :=
  ⟨simple_valueError_trace p1 f1 m1 h1,
   chaining_valueError_trace p2 f2 m2 h2,
   within_valueError_trace p3 f3 m3 h3,
   crossBuild_valueError_trace p4 f4 sel m4 h4⟩

/-- Witness for C4: one invalidly configured instance of each variant — a
non-string simple pattern, a non-list chaining configuration, mismatched
within-batch lengths, mismatched cross-batch lengths — all with empty fetch
traces. -/
theorem C4_invalid_config_before_fetch_witness :
    (SimpleDataSource.BuildDataSource ⟨.int 3⟩ exFetch).fetchTrace = [] ∧
    (ChainingDataSource.BuildDataSource ⟨.int 3⟩ exFetch).fetchTrace = [] ∧
    (WithinBatchMixingDataSource.BuildDataSource
        ⟨.list [.str "a", .str "b"], .list [.int 1]⟩ exFetch).fetchTrace = [] ∧
    (CrossBatchMixingDataSource.BuildDataSource
        ⟨.list [.str "a", .str "b"], .list [.int 1], .none⟩ exFetch 0).fetchTrace = [] :=
  C4_invalid_config_before_fetch
    ⟨.int 3⟩ exFetch "SimpleDataSource expects p.file_pattern to be a string." rfl
    ⟨.int 3⟩ exFetch "Expected a list" rfl
    ⟨.list [.str "a", .str "b"], .list [.int 1]⟩ exFetch
      "Expected p.file_patterns and p.weights to be the same length." rfl
    ⟨.list [.str "a", .str "b"], .list [.int 1], .none⟩ exFetch 0
      "Expected p.file_patterns and p.weights to be the same length." rfl

/-- Claim C5: `ChainingDataSource.BuildDataSource` on a list of comma-free
strings calls fetch exactly once on the strings joined by commas in their
original order and returns `bprop_variable_filters` as N empty strings (first
conjunct, an equality of the whole call result including the one-element
trace); it raises Invalid-Configuration when `file_patterns` is not a list
(second), contains a non-string element (third), or an element contains a
comma (fourth). -/
theorem C5_chaining_build (ps : List String) (f : Fetch)
    (hc : (ps.any fun s => s.data.contains ',') = false)
    (v : PyVal) (hv : pyIsList v = false)
    (xs : List PyVal) (x : PyVal) (hx : x ∈ xs) (hxstr : pyIsStr x = false)
    (qs : List String) (q : String) (hq : q ∈ qs) (hqc : q.data.contains ',' = true) :
    ChainingDataSource.BuildDataSource ⟨.list (ps.map .str)⟩ f
      = { res := .ok { data := f (String.intercalate "," ps) Option.none
                       source_selected := Option.none
                       selected_bprop := Option.none
                       bprop_variable_filters :=
                         some (.list (List.replicate ps.length (.str ""))) }
          fetchTrace := [⟨String.intercalate "," ps, Option.none⟩] } ∧
    isInvalidConfig (ChainingDataSource.BuildDataSource ⟨v⟩ f).res = true ∧
    isInvalidConfig (ChainingDataSource.BuildDataSource ⟨.list xs⟩ f).res = true ∧
    isInvalidConfig (ChainingDataSource.BuildDataSource ⟨.list (qs.map .str)⟩ f).res
      = true := by
  refine ⟨?_, ?_, ?_, ?_⟩
  · have hany : ((ps.map PyVal.str).any fun y => (pyStr y).data.contains ',') = false := by
      rw [any_comma_map_str]
      exact hc
    simp only [ChainingDataSource.BuildDataSource, all_pyIsStr_map_str, Bool.not_true,
      Bool.false_eq_true, if_false, hany, map_pyStr_map_str, List.length_map]
  · cases v <;> simp_all [ChainingDataSource.BuildDataSource, pyIsList, isInvalidConfig]
  · have hall : xs.all pyIsStr = false := by
      rw [List.all_eq_false]
      exact ⟨x, hx, by simp [hxstr]⟩
    simp [ChainingDataSource.BuildDataSource, hall, isInvalidConfig]
  · have hany : ((qs.map PyVal.str).any fun y => (pyStr y).data.contains ',') = true := by
      rw [any_comma_map_str, List.any_eq_true]
      exact ⟨q, hq, hqc⟩
    simp only [ChainingDataSource.BuildDataSource, all_pyIsStr_map_str, Bool.not_true,
      Bool.false_eq_true, if_false, hany, if_true]
    rfl

/-- Witness for C5: patterns ["a", "b"] are joined to "a,b"; a non-list, a
list with an int element, and a list with a comma pattern all fail. -/
theorem C5_chaining_build_witness :
    ChainingDataSource.BuildDataSource ⟨.list [.str "a", .str "b"]⟩ exFetch
      = { res := .ok { data := .leaf [4, 7]
                       source_selected := Option.none
                       selected_bprop := Option.none
                       bprop_variable_filters :=
                         some (.list [.str "", .str ""]) }
          fetchTrace := [⟨"a,b", Option.none⟩] } ∧
    isInvalidConfig (ChainingDataSource.BuildDataSource ⟨.int 7⟩ exFetch).res = true ∧
    isInvalidConfig (ChainingDataSource.BuildDataSource
        ⟨.list [.str "a", .int 7]⟩ exFetch).res = true ∧
    isInvalidConfig (ChainingDataSource.BuildDataSource
        ⟨.list [.str "a,b"]⟩ exFetch).res = true :=
  C5_chaining_build ["a", "b"] exFetch rfl (.int 7) rfl [.str "a", .int 7] (.int 7)
    (by simp) rfl ["a,b"] "a,b" (by simp) rfl

/-- Claim C6: `SimpleDataSource.BuildDataSource` raises Invalid-Configuration
when `file_pattern` is not a string (second and third conjuncts: error and no
fetch); otherwise it calls fetch exactly once with exactly the configured
string and returns a mapping whose only bound field is `data` holding the
fetch result verbatim — the selection bookkeeping fields are all absent
(first conjunct, an equality of the whole call result). -/
theorem C6_simple_build (s : String) (f : Fetch) (v : PyVal)
    (hv : pyIsStr v = false) :
    SimpleDataSource.BuildDataSource ⟨.str s⟩ f
      = { res := .ok { data := f s Option.none
                       source_selected := Option.none
                       selected_bprop := Option.none
                       bprop_variable_filters := Option.none }
          fetchTrace := [⟨s, Option.none⟩] } ∧
    isInvalidConfig (SimpleDataSource.BuildDataSource ⟨v⟩ f).res = true ∧
    (SimpleDataSource.BuildDataSource ⟨v⟩ f).fetchTrace = [] := by
  refine ⟨rfl, ?_, ?_⟩ <;>
    cases v <;> simp_all [SimpleDataSource.BuildDataSource, pyIsStr, isInvalidConfig]

/-- Witness for C6 at the pattern "a" and the non-string configuration 3. -/
theorem C6_simple_build_witness :
    SimpleDataSource.BuildDataSource ⟨.str "a"⟩ exFetch
      = { res := .ok { data := .leaf [4, 7]
                       source_selected := Option.none
                       selected_bprop := Option.none
                       bprop_variable_filters := Option.none }
          fetchTrace := [⟨"a", Option.none⟩] } ∧
    isInvalidConfig (SimpleDataSource.BuildDataSource ⟨.int 3⟩ exFetch).res = true ∧
    (SimpleDataSource.BuildDataSource ⟨.int 3⟩ exFetch).fetchTrace = [] :=
  C6_simple_build "a" exFetch (.int 3) rfl

/-- Claim C7: whenever `file_patterns` and `weights` of
`WithinBatchMixingDataSource` are both lists of different lengths,
`BuildDataSource` raises Invalid-Configuration and fetch is never called. -/
theorem C7_within_batch_length_mismatch (ps ws : List PyVal) (f : Fetch)
    (h : ps.length ≠ ws.length) :
    isInvalidConfig (WithinBatchMixingDataSource.BuildDataSource
        ⟨.list ps, .list ws⟩ f).res = true ∧
    (WithinBatchMixingDataSource.BuildDataSource ⟨.list ps, .list ws⟩ f).fetchTrace
      = [] := by
  have hb : (ps.length != ws.length) = true := by simpa using h
  constructor <;>
    simp [WithinBatchMixingDataSource.BuildDataSource, hb, isInvalidConfig]

/-- Witness for C7: three patterns against two weights. -/
theorem C7_within_batch_length_mismatch_witness :
    isInvalidConfig (WithinBatchMixingDataSource.BuildDataSource
        ⟨.list [.str "a", .str "b", .str "c"], .list [.int 1, .int 2]⟩ exFetch).res
      = true ∧
    (WithinBatchMixingDataSource.BuildDataSource
        ⟨.list [.str "a", .str "b", .str "c"], .list [.int 1, .int 2]⟩ exFetch).fetchTrace
      = [] :=
  C7_within_batch_length_mismatch [.str "a", .str "b", .str "c"] [.int 1, .int 2]
    exFetch (by decide)

/-- Claim C8: `DataSource.__init__` stores a copy of the configuration, so a
mutation of the configuration object of the caller after construction does not
affect the stored configuration of the instance (first two conjuncts: the stored
object after the mutation still reads as the originally configured value) nor
the behavior of `BuildDataSource` on it (third conjunct). -/
theorem C8_params_copied_on_construction (st : Store SimpleParams) (r : Nat)
    (v : SimpleParams) (f : Fetch) (hr : r < st.cells.length) :
    ((DataSource.init st r).1.set r v).get (DataSource.init st r).2.paramsRef
      = (DataSource.init st r).1.get (DataSource.init st r).2.paramsRef ∧
    ((DataSource.init st r).1.set r v).get (DataSource.init st r).2.paramsRef
      = st.get r ∧
    (((DataSource.init st r).1.set r v).get (DataSource.init st r).2.paramsRef).map
        (fun q => SimpleDataSource.BuildDataSource q f)
      = (st.get r).map fun q => SimpleDataSource.BuildDataSource q f := by
  obtain ⟨val, hval⟩ : ∃ val, st.get r = some val := by
    rw [Store.get, List.get?_eq_get hr]
    exact ⟨_, rfl⟩
  have hinit : DataSource.init st r = (⟨st.cells ++ [val]⟩, ⟨st.cells.length⟩) := by
    simp [DataSource.init, Params.Copy, hval]
  rw [hinit]
  have hne : r ≠ st.cells.length := Nat.ne_of_lt hr
  have hget1 : (⟨st.cells ++ [val]⟩ : Store SimpleParams).get st.cells.length
      = some val := by
    rw [Store.get]
    exact List.get?_concat_length _ _
  have hget2 : ((⟨st.cells ++ [val]⟩ : Store SimpleParams).set r v).get st.cells.length
      = some val := by
    rw [Store.set, Store.get]
    rw [List.get?_set_ne v _ hne]
    exact List.get?_concat_length _ _
  exact ⟨by rw [hget2, hget1], by rw [hget2, hval], by rw [hget2, hval]⟩

/-- Witness for C8: a one-cell store; mutating the original object after
construction leaves the instance reading the original configuration. -/
theorem C8_params_copied_on_construction_witness :
    ((DataSource.init (⟨[⟨.str "p"⟩]⟩ : Store SimpleParams) 0).1.set 0 ⟨.int 5⟩).get
        (DataSource.init (⟨[⟨.str "p"⟩]⟩ : Store SimpleParams) 0).2.paramsRef
      = (DataSource.init (⟨[⟨.str "p"⟩]⟩ : Store SimpleParams) 0).1.get
          (DataSource.init (⟨[⟨.str "p"⟩]⟩ : Store SimpleParams) 0).2.paramsRef ∧
    ((DataSource.init (⟨[⟨.str "p"⟩]⟩ : Store SimpleParams) 0).1.set 0 ⟨.int 5⟩).get
        (DataSource.init (⟨[⟨.str "p"⟩]⟩ : Store SimpleParams) 0).2.paramsRef
      = (⟨[⟨.str "p"⟩]⟩ : Store SimpleParams).get 0 ∧
    (((DataSource.init (⟨[⟨.str "p"⟩]⟩ : Store SimpleParams) 0).1.set 0 ⟨.int 5⟩).get
        (DataSource.init (⟨[⟨.str "p"⟩]⟩ : Store SimpleParams) 0).2.paramsRef).map
        (fun q => SimpleDataSource.BuildDataSource q exFetch)
      = ((⟨[⟨.str "p"⟩]⟩ : Store SimpleParams).get 0).map
          fun q => SimpleDataSource.BuildDataSource q exFetch :=
  C8_params_copied_on_construction ⟨[⟨.str "p"⟩]⟩ 0 ⟨.int 5⟩ exFetch (by decide)

/-- Claim C9: `CrossBatchMixingDataSource.BuildDataSource` performs no comma
validation — a configuration whose selected pattern contains a comma passes
validation (first conjunct) and the pattern is handed verbatim to the fetch
call of its producer, comma included (second conjunct) — unlike ChainingDataSource
and WithinBatchMixingDataSource, which reject any pattern containing a comma
(third and fourth conjuncts). -/
theorem C9_cross_batch_no_comma_validation (ps : List String) (ws : List PyVal)
    (bf : PyVal) (f : Fetch) (sel : Nat) (y : String)
    (hlen : ws.length = ps.length) (hsel : sel < ps.length)
    (hcomma : (ps.get ⟨sel, hsel⟩).data.contains ',' = true)
    (hy : y.data.contains ',' = true) :
    isInvalidConfig (CrossBatchMixingDataSource.BuildDataSource
        ⟨.list (ps.map .str), .list ws, bf⟩ f sel).res = false ∧
    (CrossBatchMixingDataSource.BuildDataSource
        ⟨.list (ps.map .str), .list ws, bf⟩ f sel).fetchTrace
      = [⟨ps.get ⟨sel, hsel⟩, Option.none⟩] ∧
    isInvalidConfig (ChainingDataSource.BuildDataSource ⟨.list [.str y]⟩ f).res
      = true ∧
    isInvalidConfig (WithinBatchMixingDataSource.BuildDataSource
        ⟨.list [.str y], .list [.int 1]⟩ f).res = true := by
  refine ⟨(crossBuild_guards_pass ps ws bf f sel hlen).2, ?_, ?_, ?_⟩
  · rw [crossBuild_wf ps ws bf f sel hlen hsel]
    cases firstLeafBatchSize (f (ps.get ⟨sel, hsel⟩) Option.none) <;> rfl
  · simp only [ChainingDataSource.BuildDataSource, List.all_cons, List.all_nil,
      List.any_cons, List.any_nil, pyIsStr, pyStr, hy, Bool.and_true, Bool.not_true,
      Bool.false_eq_true, if_false, Bool.or_false, if_true]
    rfl
  · simp only [WithinBatchMixingDataSource.BuildDataSource, List.length_cons,
      List.length_nil, bne_self_eq_false, Bool.false_eq_true, if_false,
      List.all_cons, List.all_nil, List.any_cons, List.any_nil, pyIsStr, pyStr, hy,
      Bool.and_true, Bool.not_true, Bool.or_false, if_true]
    rfl

/-- Witness for C9: the comma pattern "a,c" is selected and fetched verbatim
by the cross-batch variant while "," is rejected by chaining and within-batch
mixing. -/
theorem C9_cross_batch_no_comma_validation_witness :
    isInvalidConfig (CrossBatchMixingDataSource.BuildDataSource
        ⟨.list [.str "a,c", .str "b"], .list [.int 1, .int 2], .none⟩ exFetch 0).res
      = false ∧
    (CrossBatchMixingDataSource.BuildDataSource
        ⟨.list [.str "a,c", .str "b"], .list [.int 1, .int 2], .none⟩ exFetch 0).fetchTrace
      = [⟨"a,c", Option.none⟩] ∧
    isInvalidConfig (ChainingDataSource.BuildDataSource ⟨.list [.str ","]⟩ exFetch).res
      = true ∧
    isInvalidConfig (WithinBatchMixingDataSource.BuildDataSource
        ⟨.list [.str ","], .list [.int 1]⟩ exFetch).res = true :=
  C9_cross_batch_no_comma_validation ["a,c", "b"] [.int 1, .int 2] .none exFetch 0 ","
    rfl (by decide) (by decide) (by decide)

/-- Claim C10: neither mixing variant inspects the weight values during
validation. For every weights list of matching length — its elements may be
negative, zero, or non-numeric — within-batch validation succeeds and the
whole weights list is forwarded unchanged to the fetch collaborator as
`input_source_weights` (first conjunct, an equality of the whole call result
including the trace), and cross-batch validation succeeds (third conjunct)
with the weights list forwarded unchanged to the weighted selector
`MixByWeight` (second conjunct). -/
theorem C10_weights_never_inspected (ps : List String) (ws : List PyVal)
    (bf : PyVal) (f : Fetch) (sel : Nat)
    (hlen : ws.length = ps.length)
    (hc : (ps.any fun s => s.data.contains ',') = false) :
    WithinBatchMixingDataSource.BuildDataSource ⟨.list (ps.map .str), .list ws⟩ f
      = { res := .ok { data := f (String.intercalate "," ps) (some (.list ws))
                       source_selected := Option.none
                       selected_bprop := Option.none
                       bprop_variable_filters :=
                         some (.list (List.replicate ps.length (.str ""))) }
          fetchTrace := [⟨String.intercalate "," ps, some (.list ws)⟩] } ∧
    (CrossBatchMixingDataSource.BuildDataSource
        ⟨.list (ps.map .str), .list ws, bf⟩ f sel).mixWeights = some (.list ws) ∧
    isInvalidConfig (CrossBatchMixingDataSource.BuildDataSource
        ⟨.list (ps.map .str), .list ws, bf⟩ f sel).res = false := by
  refine ⟨?_, (crossBuild_guards_pass ps ws bf f sel hlen).1,
    (crossBuild_guards_pass ps ws bf f sel hlen).2⟩
  have hany : ((ps.map PyVal.str).any fun y => (pyStr y).data.contains ',') = false := by
    rw [any_comma_map_str]
    exact hc
  simp only [WithinBatchMixingDataSource.BuildDataSource, List.length_map, hlen,
    bne_self_eq_false, Bool.false_eq_true, if_false, all_pyIsStr_map_str,
    Bool.not_true, hany, map_pyStr_map_str]

/-- Witness for C10: a None and a negative weight of matching length are
accepted and forwarded unchanged by both mixing variants. -/
theorem C10_weights_never_inspected_witness :
    WithinBatchMixingDataSource.BuildDataSource
        ⟨.list [.str "a", .str "b"], .list [.none, .int (-1)]⟩ exFetch
      = { res := .ok { data := .leaf [4, 7]
                       source_selected := Option.none
                       selected_bprop := Option.none
                       bprop_variable_filters :=
                         some (.list [.str "", .str ""]) }
          fetchTrace := [⟨"a,b", some (.list [.none, .int (-1)])⟩] } ∧
    (CrossBatchMixingDataSource.BuildDataSource
        ⟨.list [.str "a", .str "b"], .list [.none, .int (-1)], .none⟩ exFetch 0).mixWeights
      = some (.list [.none, .int (-1)]) ∧
    isInvalidConfig (CrossBatchMixingDataSource.BuildDataSource
        ⟨.list [.str "a", .str "b"], .list [.none, .int (-1)], .none⟩ exFetch 0).res
      = false :=
  C10_weights_never_inspected ["a", "b"] [.none, .int (-1)] .none exFetch 0 rfl rfl

end Datasource
